import Mathlib

/-!
Shallow embedding of the LCR Area Calculations Module frontend
(`PlanViewer.jsx`, `ResultsPanel`, `FileUpload`, `App` and `api.js`)
together with the spec-described backend pieces that the frontend
consumes.  Numbers that the JavaScript code manipulates exactly
(coordinates, areas) are modelled as rationals; JavaScript objects are
modelled as structures, absent/optional fields as `Option`.
-/

namespace LCR

/-- A polygon of a processing result, as consumed by the frontend
(`result.polygons` entries and `sheet.polygons` entries).  `coords_pdf`
and `coordinates` model the two coordinate formats the viewer supports;
a missing field is `none`. -/
structure Polygon where
  id : String
  sheet : Nat
  type : String
  area_sqft : ℚ
  confidence : ℚ
  compactness : ℚ
  vertex_count : Nat
  review_needed : Bool
  review_reasons : List String
  coords_pdf : Option (List (ℚ × ℚ))
  coordinates : Option (List (ℚ × ℚ))
  source : Option String
deriving DecidableEq

/-- Per-sheet totals shown in the sheet summary cards. -/
structure SheetTotals where
  impervious : ℚ
  pervious : ℚ
deriving DecidableEq

/-- A sheet of a processing result (`result.sheets` entries). -/
structure Sheet where
  sheet_number : Nat
  pdf_width : Option ℚ
  pdf_height : Option ℚ
  polygons : List Polygon
  polygons_count : Nat
  sheet_totals : SheetTotals
  image_base64 : Option String
deriving DecidableEq

/-- Job-wide summary of a processing result. -/
structure Summary where
  total_polygons : Nat
  polygons_needing_review : Nat
  total_impervious_sqft : ℚ
  total_pervious_sqft : ℚ
  total_site_area_sqft : ℚ
  percent_impervious : ℚ
  percent_pervious : ℚ
deriving DecidableEq

/-- A completed-job processing result, as stored by `App` in `results`
and consumed by `ResultsPanel`. -/
structure ProcessResult where
  filename : String
  sheets_processed : Nat
  summary : Summary
  polygons : List Polygon
  sheets : List Sheet
deriving DecidableEq

/-! ### PlanViewer coordinate maps (`PlanViewer.jsx` lines 56-80)

The component reads `pdfWidth = sheet.pdf_width || 612` and
`pdfHeight = sheet.pdf_height || 792`; the maps are parameterized by
those dimensions and the current view dimensions. -/

/-- `sheet.pdf_width || 612`: a missing or zero (falsy) width falls back
to the letter-size default. -/
def pdfWidthOf (s : Sheet) : ℚ :=
  match s.pdf_width with
  | none => 612
  | some w => if w = 0 then 612 else w

/-- `sheet.pdf_height || 792`. -/
def pdfHeightOf (s : Sheet) : ℚ :=
  match s.pdf_height with
  | none => 792
  | some h => if h = 0 then 792 else h

/-- `mapPdfToScreen(pdfX, pdfY, vw, vh)`: scales by `vw/pdfWidth` and
`vh/pdfHeight` and flips the Y axis (PDF origin bottom-left, screen
origin top-left); returns `(0, 0)` when either view dimension is 0. -/
def mapPdfToScreen (pw ph vw vh pdfX pdfY : ℚ) : ℚ × ℚ :=
  if vw = 0 ∨ vh = 0 then (0, 0)
  else
    let scaleX := vw / pw
    let scaleY := vh / ph
    (pdfX * scaleX, (ph - pdfY) * scaleY)

/-- `mapScreenToPdf(screenX, screenY)`: the inverse transform used for
hit testing; returns `(0, 0)` when either view dimension is 0. -/
def mapScreenToPdf (pw ph vw vh screenX screenY : ℚ) : ℚ × ℚ :=
  if vw = 0 ∨ vh = 0 then (0, 0)
  else
    let scaleX := vw / pw
    let scaleY := vh / ph
    (screenX / scaleX, ph - screenY / scaleY)

/-! ### Surface colors and polygon rendering (`PlanViewer.jsx` lines 4-10, 112-120) -/

/-- A `SURFACE_COLORS` entry. -/
structure SurfaceColor where
  fill : String
  stroke : String
  label : String
deriving DecidableEq

/-- The `SURFACE_COLORS` lookup table: a JavaScript object keyed by
surface type; a key that is absent yields `none` (undefined). -/
def SURFACE_COLORS (t : String) : Option SurfaceColor :=
  if t = "building" then some ⟨"rgba(200, 0, 0, 0.4)", "rgb(200, 0, 0)", "Bldg"⟩
  else if t = "concrete" then some ⟨"rgba(128, 128, 128, 0.4)", "rgb(128, 128, 128)", "Conc"⟩
  else if t = "asphalt" then some ⟨"rgba(50, 50, 50, 0.4)", "rgb(50, 50, 50)", "Asph"⟩
  else if t = "pervious" then some ⟨"rgba(0, 200, 0, 0.3)", "rgb(0, 200, 0)", "Perv"⟩
  else if t = "water" then some ⟨"rgba(0, 100, 200, 0.4)", "rgb(0, 100, 200)", "Water"⟩
  else none

/-- `SURFACE_COLORS[polygon.type] || SURFACE_COLORS.pervious` in
`drawCanvas`: the colors used to render a polygon of type `t`. -/
def colorsFor (t : String) : SurfaceColor :=
  match SURFACE_COLORS t with
  | some c => c
  | none => ⟨"rgba(0, 200, 0, 0.3)", "rgb(0, 200, 0)", "Perv"⟩

/-! ### CSV export (`ResultsPanel.downloadCSV`, `PlanViewer.jsx` lines 339-359) -/

/-- The filter controls of `ResultsPanel` (surface type dropdown, sheet
tab, review-only checkbox). -/
structure PanelState where
  selectedType : String
  selectedSheet : Option Nat
  showReviewOnly : Bool
deriving DecidableEq

/-- `filteredPolygons` of `ResultsPanel`: the list the polygon cards
display under the current filters. -/
def filteredPolygons (ps : List Polygon) (panel : PanelState) : List Polygon :=
  ps.filter fun p =>
    decide (panel.selectedSheet = none ∨ panel.selectedSheet = some p.sheet)
    && decide (panel.selectedType = "all" ∨ p.type = panel.selectedType)
    && (!panel.showReviewOnly || p.review_needed)

/-- One CSV data row
`id,sheet,type,area_sqft,perimeterType`. -/
structure CsvRow where
  polygonId : String
  sheetNumber : Nat
  surfaceType : String
  areaSqft : ℚ
  perimeterType : String
deriving DecidableEq

/-- The row `downloadCSV` emits for one polygon:
`['concrete', 'asphalt', 'building'].includes(poly.type) ? 'Impervious' : 'Pervious'`. -/
def rowOf (p : Polygon) : CsvRow :=
  { polygonId := p.id
    sheetNumber := p.sheet
    surfaceType := p.type
    areaSqft := p.area_sqft
    perimeterType :=
      if p.type ∈ (["concrete", "asphalt", "building"] : List String)
      then "Impervious" else "Pervious" }

/-- The `polygons.forEach` accumulation loop of `downloadCSV`: rows are
appended to the accumulator one polygon at a time, in list order. -/
def downloadCSVAux (acc : List CsvRow) : List Polygon → List CsvRow
  | [] => acc
  | p :: rest => downloadCSVAux (acc ++ [rowOf p]) rest

/-- `downloadCSV` as invoked from the panel: it closes over the full
`polygons` list of the result, not over `filteredPolygons`, so the
panel's filter state is ignored. -/
def downloadCSVRows (res : ProcessResult) (_panel : PanelState) : List CsvRow :=
  downloadCSVAux [] res.polygons

/-- Textual form of one CSV row (template literal of `downloadCSV`). -/
def rowString (r : CsvRow) : String :=
  r.polygonId ++ "," ++ toString r.sheetNumber ++ "," ++ r.surfaceType ++ ","
    ++ toString r.areaSqft ++ "," ++ r.perimeterType ++ "\n"

/-- The CSV header line of `downloadCSV`. -/
def csvHeader : String := "Polygon ID,Sheet,Surface Type,Area (sqft),Perimeter Type\n"

/-- The full CSV text: header followed by the accumulated rows. -/
def csvText (res : ProcessResult) (panel : PanelState) : String :=
  csvHeader ++ String.join ((downloadCSVRows res panel).map rowString)

/-! ### Point-in-polygon test and click selection (`PlanViewer.jsx` lines 168-232) -/

/-- `polygon.coords_pdf || polygon.coordinates`: `coords_pdf` wins when
present (a present empty array is truthy in JavaScript and is kept). -/
def getCoords (p : Polygon) : Option (List (ℚ × ℚ)) :=
  match p.coords_pdf with
  | some c => some c
  | none => p.coordinates

/-- One iteration of the ray-casting loop: edge from vertex `j` to
vertex `i`; the division is only reached when `yi > y` and `yj > y`
disagree, which forces `yj ≠ yi`. -/
def rayCastStep (x y : ℚ) (pi pj : ℚ × ℚ) : Bool :=
  (decide (pi.2 > y) != decide (pj.2 > y))
    && decide (x < (pj.1 - pi.1) * (y - pi.2) / (pj.2 - pi.2) + pi.1)

/-- `isPointInPolygonPdf(x, y, coordsPdf)`: standard even-odd ray
casting; `j` starts at the last index and trails `i`. -/
def isPointInPolygonPdf (x y : ℚ) (coordsPdf : List (ℚ × ℚ)) : Bool :=
  let n := coordsPdf.length
  (List.range n).foldl
    (fun inside i =>
      let j := if i = 0 then n - 1 else i - 1
      if rayCastStep x y (coordsPdf.getD i (0, 0)) (coordsPdf.getD j (0, 0))
      then !inside else inside)
    false

/-- The per-polygon hit condition of the `handleCanvasClick` loop:
`coords && isPointInPolygonPdf(pdfPt.x, pdfPt.y, coords)`. -/
def hitTest (pt : ℚ × ℚ) (p : Polygon) : Bool :=
  match getCoords p with
  | some c => isPointInPolygonPdf pt.1 pt.2 c
  | none => false

/-- The `for (const polygon of sheet.polygons)` loop of
`handleCanvasClick` at a PDF-space point: the first hit toggles the
selection and returns; exhausting the list clears it. -/
def clickSelect (sel : Option String) (pt : ℚ × ℚ) : List Polygon → Option String
  | [] => none
  | p :: rest =>
    if hitTest pt p then (if sel = some p.id then none else some p.id)
    else clickSelect sel pt rest

/-- `handleCanvasClick`: maps the canvas-relative screen point to PDF
space with `mapScreenToPdf`, then resolves the selection. -/
def handleCanvasClick (pw ph vw vh : ℚ) (sel : Option String)
    (polys : List Polygon) (screenX screenY : ℚ) : Option String :=
  clickSelect sel (mapScreenToPdf pw ph vw vh screenX screenY) polys

/-! ### Review rendering (`PlanViewer.jsx` lines 282-291 and 589-598) -/

/-- The PlanViewer detail card renders the review warning block (with
its `review_reasons` list) exactly when `selectedData.review_needed` is
truthy. -/
def planViewerReviewCard (p : Polygon) : Option (List String) :=
  if p.review_needed then some p.review_reasons else none

/-- A ResultsPanel polygon card renders its reasons block under
`poly.review_needed && poly.review_reasons` (a present list is always
truthy in this model). -/
def resultsCardReasons (p : Polygon) : Option (List String) :=
  if p.review_needed then some p.review_reasons else none

/-! ### Quality analyzer, modelled from the spec -/

/-- Per-sheet area statistics feeding the statistical-outlier rule. -/
structure SheetStats where
  polygonCount : Nat
  meanArea : ℚ
  stdevArea : ℚ
deriving DecidableEq

/-- Modelled from the spec: the backend Quality Analyzer
(`analyzer.py`) is not under `src/`; per the spec each rule is
independently evaluated and all matching reasons are collected, and the
statistical-outlier rule is skipped on sheets with fewer than 10
polygons. -/
def reviewReasons (p : Polygon) (st : SheetStats) : List String :=
  (if p.area_sqft < 100 then ["very small area"] else [])
    ++ (if p.area_sqft > 50000 then ["very large area"] else [])
    ++ (if p.compactness < (15 / 100 : ℚ) then ["irregular shape"] else [])
    ++ (if p.vertex_count > 50 then ["complex polygon"] else [])
    ++ (if st.polygonCount ≥ 10 ∧ |p.area_sqft - st.meanArea| > 3 * st.stdevArea
        then ["statistical outlier"] else [])

/-- Modelled from the spec: the analyzer sets `review_needed` to true
iff the collected reason list is non-empty, and attaches the list to
the polygon. -/
def analyzedPolygon (p : Polygon) (st : SheetStats) : Polygon :=
  { p with
    review_reasons := reviewReasons p st
    review_needed := !(reviewReasons p st).isEmpty }

/-! ### API layer (`api.js`) -/

/-- An HTTP request descriptor issued through axios. -/
structure ApiRequest where
  method : String
  url : String
deriving DecidableEq

/-- `const API_BASE_URL = 'http://localhost:8000'`. -/
def API_BASE_URL : String := "http://localhost:8000"

/-- The request `startProcessJob` issues: a multipart POST of the file
to `/api/process/start`. -/
def startProcessJobRequest : ApiRequest :=
  { method := "post", url := API_BASE_URL ++ "/api/process/start" }

/-- The request `getProcessStatus(jobId)` issues. -/
def getProcessStatusRequest (jobId : String) : ApiRequest :=
  { method := "get", url := API_BASE_URL ++ "/api/process/status/" ++ jobId }

/-- Modelled from the spec: the backend job-start endpoint is not under
`src/`; per the spec, Submit(document) returns an opaque job
identifier immediately and carries no result payload, so the response
`startProcessJob` forwards holds exactly the `job_id` field. -/
structure StartJobResponse where
  job_id : Nat
deriving DecidableEq

/-- A status snapshot as returned by `getProcessStatus` and consumed by
the poll handler; optional fields are `none` when absent. -/
structure StatusSnapshot where
  status : String
  current_sheet : Option Nat
  total_sheets : Option Nat
  result : Option ProcessResult
  error : Option String
deriving DecidableEq

/-! ### App component state and poll handler (`App.jsx`) -/

/-- The React state of `App` plus the polling interval handle:
`polling` is true exactly while `pollIntervalRef.current` is set. -/
structure AppState where
  results : Option ProcessResult
  loading : Bool
  error : Option String
  progressCurrent : Nat
  progressTotal : Nat
  progressStatus : String
  polling : Bool
  jobId : Option Nat
deriving DecidableEq

/-- `status.error || 'Processing failed'` (the empty string is falsy). -/
def errorOrDefaultText (st : StatusSnapshot) : String :=
  match st.error with
  | some e => if e = "" then "Processing failed" else e
  | none => "Processing failed"

/-- The successful branch of the `poll` closure: update the progress
display from the snapshot, then on `completed` stop the interval, store
the result when one is present and stop loading; on `error` stop the
interval, store the error message and stop loading; otherwise change
nothing else. -/
def pollStepOk (s : AppState) (st : StatusSnapshot) : AppState :=
  let s1 := { s with
    progressCurrent := st.current_sheet.getD 0
    progressTotal := st.total_sheets.getD 0
    progressStatus := if st.status = "" then "unknown" else st.status }
  if st.status = "completed" then
    let s2 := { s1 with polling := false }
    let s3 := match st.result with
      | some r => { s2 with results := some r }
      | none => s2
    { s3 with loading := false }
  else if st.status = "error" then
    { s1 with polling := false, error := some (errorOrDefaultText st), loading := false }
  else s1

/-- The `catch` branch of the `poll` closure (`getProcessStatus`
threw): stop the interval, surface the fixed error message, stop
loading. -/
def pollStepFail (s : AppState) : AppState :=
  { s with polling := false, error := some "Lost connection to processing job", loading := false }

/-- The events that drive `App` once mounted: a successful submission
(`handleFileUpload` reaching `setInterval`), a poll whose request
succeeded with a snapshot, and a poll whose request threw. -/
inductive Event where
  | upload (j : Nat)
  | pollOk (st : StatusSnapshot)
  | pollFail
deriving DecidableEq

/-- One state transition of `App`.  `upload` models the success path of
`handleFileUpload`: clear results and error, set loading, reset the
progress display, record the job id destructured from the
`startProcessJob` response, and start the polling interval. -/
def step (s : AppState) : Event → AppState
  | .upload j =>
    { results := none
      loading := true
      error := none
      progressCurrent := 0
      progressTotal := 0
      progressStatus := "running"
      polling := true
      jobId := some j }
  | .pollOk st => pollStepOk s st
  | .pollFail => pollStepFail s

/-- Whether an event can occur in a state: poll callbacks only fire
while the interval is set (`setInterval` has not been cleared). -/
def allowed (s : AppState) : Event → Bool
  | .upload _ => true
  | .pollOk _ => s.polling
  | .pollFail => s.polling

/-- A run of events, each allowed in the state it fires from. -/
def validRun : AppState → List Event → Bool
  | _, [] => true
  | s, e :: es => allowed s e && validRun (step s e) es

/-- What the page displays as results: `results && !loading`. -/
def displayedResults (s : AppState) : Option ProcessResult :=
  if s.loading then none else s.results

/-- What the page displays as the error: `error && ...`. -/
def displayedError (s : AppState) : Option String :=
  s.error

/-! ### FileUpload component (`FileUpload.jsx`) -/

/-- A browser `File` object, by the fields the component reads. -/
structure UFile where
  name : String
  mimeType : String
  size : Nat
deriving DecidableEq

/-- The component state: the currently selected file, if any. -/
structure UploadState where
  selectedFile : Option UFile
deriving DecidableEq

/-- `handleFile(file)`: a non-PDF MIME type alerts and returns without
selecting; a PDF becomes the selected file. -/
def handleFile (s : UploadState) (f : UFile) : UploadState :=
  if f.mimeType ≠ "application/pdf" then s
  else { s with selectedFile := some f }

/-- User interactions with the component: choosing or dropping a file,
and clicking the Process PDF button. -/
inductive UploadEvent where
  | choose (f : UFile)
  | click
deriving DecidableEq

/-- The files passed to `onUpload` over an interaction sequence:
`handleUpload` forwards the selected file only when one is present. -/
def uploadsOf : UploadState → List UploadEvent → List UFile
  | _, [] => []
  | s, .choose f :: es => uploadsOf (handleFile s f) es
  | s, .click :: es =>
    (match s.selectedFile with
     | some f => [f]
     | none => []) ++ uploadsOf s es

/-- The component mounts with no file selected. -/
def initialUploadState : UploadState := { selectedFile := none }

/-! ### Helper lemmas (shared) -/

/-- The CSV accumulation loop appends exactly the mapped rows. -/
theorem downloadCSVAux_eq (ps : List Polygon) :
    ∀ acc, downloadCSVAux acc ps = acc ++ ps.map rowOf := by
  induction ps with
  | nil => intro acc; simp [downloadCSVAux]
  | cons p rest ih => intro acc; simp [downloadCSVAux, ih]

/-- The click loop resolves to the first polygon passing the hit test,
in list order. -/
theorem clickSelect_eq_find (sel : Option String) (pt : ℚ × ℚ)
    (polys : List Polygon) :
    clickSelect sel pt polys =
      match polys.find? (hitTest pt) with
      | some p => if sel = some p.id then none else some p.id
      | none => none := by
  induction polys with
  | nil => rfl
  | cons p rest ih =>
    by_cases h : hitTest pt p
    · simp [clickSelect, h, List.find?_cons_of_pos _ h]
    · have hb : hitTest pt p = false := by simpa using h
      rw [List.find?_cons_of_neg _ (by simp [hb])]
      simpa [clickSelect, hb] using ih

/-- With the polling interval cleared, a valid run with no new
submission contains no event at all. -/
theorem stopped_run_nil (s : AppState) (es : List Event)
    (hpoll : s.polling = false) (hrun : validRun s es = true)
    (hupl : ∀ j, Event.upload j ∉ es) : es = [] := by
  cases es with
  | nil => rfl
  | cons e rest =>
    cases e with
    | upload j => exact absurd (List.mem_cons_self _ _) (hupl j)
    | pollOk st => simp [validRun, allowed, hpoll] at hrun
    | pollFail => simp [validRun, allowed, hpoll] at hrun

/-- Invariant: a selected file always has the PDF MIME type, so every
file forwarded to `onUpload` has it. -/
theorem uploadsOf_pdf (es : List UploadEvent) :
    ∀ s : UploadState,
      (∀ f, s.selectedFile = some f → f.mimeType = "application/pdf") →
      ∀ g ∈ uploadsOf s es, g.mimeType = "application/pdf" := by
  induction es with
  | nil => intro s _ g hg; simp [uploadsOf] at hg
  | cons e rest ih =>
    intro s hinv g hg
    cases e with
    | choose f =>
      refine ih (handleFile s f) ?_ g hg
      intro g' hg'
      by_cases hf : f.mimeType = "application/pdf"
      · simp only [handleFile, hf, ne_eq, not_true_eq_false, if_false] at hg'
        cases hg'
        exact hf
      · simp only [handleFile, hf, ne_eq, not_false_eq_true, if_true] at hg'
        exact hinv g' hg'
    | click =>
      simp only [uploadsOf, List.mem_append] at hg
      rcases hg with hg | hg
      · cases hsel : s.selectedFile with
        | none => rw [hsel] at hg; simp at hg
        | some f =>
          rw [hsel] at hg
          simp at hg
          subst hg
          exact hinv g hsel
      · exact ih s hinv g hg

/-! ### Claims -/

/-- Claim C8: the PlanViewer coordinate maps are mutually inverse: for
every PDF-space point and positive view dimensions (with positive
`pdfWidth`/`pdfHeight`), `mapScreenToPdf` undoes `mapPdfToScreen`,
Y-flip included, under exact rational arithmetic; when either view
dimension is zero both maps return `(0, 0)`. -/
theorem c8_coordinate_maps_inverse (pw ph vw vh x y : ℚ)
    (hpw : 0 < pw) (hph : 0 < ph) :
    (0 < vw → 0 < vh →
      mapScreenToPdf pw ph vw vh (mapPdfToScreen pw ph vw vh x y).1
        (mapPdfToScreen pw ph vw vh x y).2 = (x, y))
    ∧ (vw = 0 ∨ vh = 0 →
      mapPdfToScreen pw ph vw vh x y = (0, 0)
      ∧ mapScreenToPdf pw ph vw vh x y = (0, 0)) := by
  constructor
  · intro hvw hvh
    have hcond : ¬(vw = 0 ∨ vh = 0) := by
      push_neg
      exact ⟨ne_of_gt hvw, ne_of_gt hvh⟩
    have hpw0 : pw ≠ 0 := ne_of_gt hpw
    have hph0 : ph ≠ 0 := ne_of_gt hph
    have hvw0 : vw ≠ 0 := ne_of_gt hvw
    have hvh0 : vh ≠ 0 := ne_of_gt hvh
    simp only [mapPdfToScreen, mapScreenToPdf, if_neg hcond]
    refine Prod.ext ?_ ?_
    · field_simp
    · field_simp
  · intro hzero
    simp [mapPdfToScreen, mapScreenToPdf, hzero]

/-- Witness for C8 at a letter-size sheet, a 100 by 200 view and the
PDF point (3, 5), plus the zero-width view case. -/
theorem c8_coordinate_maps_inverse_witness :
    mapScreenToPdf 612 792 100 200 (mapPdfToScreen 612 792 100 200 3 5).1
      (mapPdfToScreen 612 792 100 200 3 5).2 = (3, 5)
    ∧ mapPdfToScreen 612 792 0 200 3 5 = (0, 0) :=
  ⟨(c8_coordinate_maps_inverse 612 792 100 200 3 5 (by norm_num) (by norm_num)).1
      (by norm_num) (by norm_num),
    ((c8_coordinate_maps_inverse 612 792 0 200 3 5 (by norm_num) (by norm_num)).2
      (Or.inl rfl)).1⟩

/-- Claim C3: `downloadCSV` emits exactly one row per polygon of the
flat `result.polygons` list, in order, ignoring the panel's
sheet/type/review filters, each row carrying the polygon's id, sheet,
type and area, with Perimeter Type Impervious exactly for concrete,
asphalt and building, Pervious otherwise. -/
theorem c3_csv_one_row_per_polygon (res : ProcessResult) (panel : PanelState) :
    downloadCSVRows res panel = res.polygons.map rowOf
    ∧ (∀ panel2, downloadCSVRows res panel2 = downloadCSVRows res panel)
    ∧ (downloadCSVRows res panel).length = res.polygons.length
    ∧ (∀ i : Nat, (downloadCSVRows res panel)[i]? = (res.polygons[i]?).map rowOf)
    ∧ (∀ p : Polygon,
        (rowOf p).polygonId = p.id ∧ (rowOf p).sheetNumber = p.sheet
        ∧ (rowOf p).surfaceType = p.type ∧ (rowOf p).areaSqft = p.area_sqft
        ∧ ((rowOf p).perimeterType = "Impervious"
            ↔ p.type ∈ (["concrete", "asphalt", "building"] : List String))
        ∧ ((rowOf p).perimeterType = "Pervious"
            ↔ p.type ∉ (["concrete", "asphalt", "building"] : List String)))
    ∧ csvText res panel
        = csvHeader ++ String.join ((res.polygons.map rowOf).map rowString) := by
  have hrows : downloadCSVRows res panel = res.polygons.map rowOf := by
    simp [downloadCSVRows, downloadCSVAux_eq]
  refine ⟨hrows, ?_, ?_, ?_, ?_, ?_⟩
  · intro panel2
    simp [downloadCSVRows, downloadCSVAux_eq]
  · simp [hrows]
  · intro i
    simp [hrows]
  · intro p
    refine ⟨rfl, rfl, rfl, rfl, ?_, ?_⟩
    · by_cases h : p.type ∈ (["concrete", "asphalt", "building"] : List String)
      · simp [rowOf, h]
      · simp [rowOf, h]
    · by_cases h : p.type ∈ (["concrete", "asphalt", "building"] : List String)
      · simp [rowOf, h]
      · simp [rowOf, h]
  · simp [csvText, hrows]

/-- Claim C9: a polygon whose category is outside the documented
surface types is treated as pervious at the public interface: the
viewer falls back to the pervious fill and stroke for any type outside
the five-color table, and the CSV export assigns Perimeter Type
Pervious to any type outside concrete/asphalt/building — in particular
to water. -/
theorem c9_unknown_category_pervious :
    (∀ t, t ∉ (["building", "concrete", "asphalt", "pervious", "water"] : List String) →
      colorsFor t = ⟨"rgba(0, 200, 0, 0.3)", "rgb(0, 200, 0)", "Perv"⟩)
    ∧ (∀ p : Polygon, p.type ∉ (["concrete", "asphalt", "building"] : List String) →
      (rowOf p).perimeterType = "Pervious")
    ∧ (∀ p : Polygon, p.type = "water" → (rowOf p).perimeterType = "Pervious") := by
  refine ⟨?_, ?_, ?_⟩
  · intro t ht
    simp only [List.mem_cons, List.not_mem_nil, or_false, not_or] at ht
    obtain ⟨h1, h2, h3, h4, h5⟩ := ht
    simp [colorsFor, SURFACE_COLORS, h1, h2, h3, h4, h5]
  · intro p hp
    simp [rowOf, hp]
  · intro p hp
    have : p.type ∉ (["concrete", "asphalt", "building"] : List String) := by
      rw [hp]; decide
    simp [rowOf, this]

/-- Witness for C9: an undocumented type renders with the pervious
colors, and a water polygon exports as Pervious. -/
theorem c9_unknown_category_pervious_witness :
    colorsFor "gravel" = ⟨"rgba(0, 200, 0, 0.3)", "rgb(0, 200, 0)", "Perv"⟩
    ∧ (rowOf ⟨"W1", 1, "water", 10, 1, 1, 4, false, [], none, none, none⟩).perimeterType
        = "Pervious" :=
  ⟨c9_unknown_category_pervious.1 "gravel" (by decide),
    c9_unknown_category_pervious.2.2
      ⟨"W1", 1, "water", 10, 1, 1, 4, false, [], none, none, none⟩ rfl⟩

/-- Claim C10: canvas click selection is a toggle resolved in list
order: when the mapped PDF-space point passes the ray-casting hit test
for at least one polygon, the handler toggles the first hit in
`sheet.polygons` order (deselecting it when already selected); when no
polygon is hit, the selection is cleared. -/
theorem c10_click_toggle_first_hit (pw ph vw vh screenX screenY : ℚ)
    (sel : Option String) (polys : List Polygon) :
    (∀ p, polys.find? (hitTest (mapScreenToPdf pw ph vw vh screenX screenY)) = some p →
      handleCanvasClick pw ph vw vh sel polys screenX screenY
        = if sel = some p.id then none else some p.id)
    ∧ ((∀ p ∈ polys, hitTest (mapScreenToPdf pw ph vw vh screenX screenY) p = false) →
      handleCanvasClick pw ph vw vh sel polys screenX screenY = none) := by
  constructor
  · intro p hp
    rw [handleCanvasClick, clickSelect_eq_find, hp]
  · intro hnone
    have hfind : polys.find? (hitTest (mapScreenToPdf pw ph vw vh screenX screenY)) = none := by
      rw [List.find?_eq_none]
      intro x hx
      simp [hnone x hx]
    rw [handleCanvasClick, clickSelect_eq_find, hfind]

/-- Witness for C10: with a unit-scale 10 by 10 view, a click at screen
point (2, 8) maps to PDF point (2, 2), which lies inside the square
polygon, so the click selects it. -/
theorem c10_click_toggle_first_hit_witness :
    handleCanvasClick 10 10 10 10 none
      [⟨"P1", 1, "concrete", 16, 1, 1, 4, false, [],
        some [(0, 0), (4, 0), (4, 4), (0, 4)], none, none⟩]
      2 8 = some "P1" := by
  have hpt : mapScreenToPdf 10 10 10 10 2 8 = ((2 : ℚ), (2 : ℚ)) := by
    norm_num [mapScreenToPdf]
  have h := (c10_click_toggle_first_hit 10 10 10 10 2 8 none
      [⟨"P1", 1, "concrete", 16, 1, 1, 4, false, [],
        some [(0, 0), (4, 0), (4, 4), (0, 4)], none, none⟩]).1
      ⟨"P1", 1, "concrete", 16, 1, 1, 4, false, [],
        some [(0, 0), (4, 0), (4, 4), (0, 4)], none, none⟩
      (by
        rw [hpt]
        norm_num [List.find?, hitTest, getCoords, isPointInPolygonPdf,
          rayCastStep, List.range_succ])
  simpa using h

/-- Claim C4: for every analyzed polygon, `review_needed` is true iff
`review_reasons` is non-empty; whenever the PlanViewer detail card or a
ResultsPanel polygon card shows the review warning, the rendered reason
list has at least one entry, and a polygon with `review_needed` false
shows no reasons. -/
theorem c4_review_invariant (p : Polygon) (st : SheetStats) :
    ((analyzedPolygon p st).review_needed = true
      ↔ (analyzedPolygon p st).review_reasons ≠ [])
    ∧ (∀ l, planViewerReviewCard (analyzedPolygon p st) = some l → l ≠ [])
    ∧ (∀ l, resultsCardReasons (analyzedPolygon p st) = some l → l ≠ [])
    ∧ ((analyzedPolygon p st).review_needed = false →
        planViewerReviewCard (analyzedPolygon p st) = none
        ∧ resultsCardReasons (analyzedPolygon p st) = none) := by
  have hiff : (analyzedPolygon p st).review_needed = true
      ↔ (analyzedPolygon p st).review_reasons ≠ [] := by
    simp [analyzedPolygon, List.isEmpty_iff]
  refine ⟨hiff, ?_, ?_, ?_⟩
  · intro l hl
    by_cases h : (analyzedPolygon p st).review_needed = true
    · simp only [planViewerReviewCard, h, if_true] at hl
      obtain rfl : (analyzedPolygon p st).review_reasons = l := by
        simpa using hl
      exact hiff.mp h
    · simp [planViewerReviewCard, h] at hl
  · intro l hl
    by_cases h : (analyzedPolygon p st).review_needed = true
    · simp only [resultsCardReasons, h, if_true] at hl
      obtain rfl : (analyzedPolygon p st).review_reasons = l := by
        simpa using hl
      exact hiff.mp h
    · simp [resultsCardReasons, h] at hl
  · intro h
    constructor
    · simp [planViewerReviewCard, h]
    · simp [resultsCardReasons, h]

/-- Witness for C4: a 50 sqft polygon is flagged, its warning card
shows a non-empty reason list. -/
theorem c4_review_invariant_witness :
    (analyzedPolygon ⟨"P1", 1, "concrete", 50, 1, 1, 4, false, [], none, none, none⟩
      ⟨0, 0, 0⟩).review_needed = true
    ∧ (analyzedPolygon ⟨"P1", 1, "concrete", 50, 1, 1, 4, false, [], none, none, none⟩
      ⟨0, 0, 0⟩).review_reasons ≠ [] := by
  have hneed : (analyzedPolygon
      ⟨"P1", 1, "concrete", 50, 1, 1, 4, false, [], none, none, none⟩
      ⟨0, 0, 0⟩).review_needed = true := by
    norm_num [analyzedPolygon, reviewReasons]
  exact ⟨hneed,
    (c4_review_invariant ⟨"P1", 1, "concrete", 50, 1, 1, 4, false, [], none, none, none⟩
      ⟨0, 0, 0⟩).1.mp hneed⟩

/-- Claim C6: a selected or dropped file whose MIME type is not
`application/pdf` is rejected before any job is created: `handleFile`
leaves the component state unchanged, and every file ever forwarded to
`onUpload` (hence to `startProcessJob`) has the PDF MIME type. -/
theorem c6_nonpdf_rejected (s : UploadState) (f : UFile)
    (hf : f.mimeType ≠ "application/pdf") :
    handleFile s f = s
    ∧ (∀ es g, g ∈ uploadsOf initialUploadState es → g.mimeType = "application/pdf") := by
  refine ⟨by simp [handleFile, hf], ?_⟩
  intro es g hg
  refine uploadsOf_pdf es initialUploadState ?_ g hg
  intro g' hg'
  simp [initialUploadState] at hg'

/-- Witness for C6: a PNG selection is dropped; a PDF chosen and then
submitted is the only kind of file `onUpload` ever receives. -/
theorem c6_nonpdf_rejected_witness :
    handleFile initialUploadState ⟨"img.png", "image/png", 10⟩ = initialUploadState
    ∧ (⟨"plan.pdf", "application/pdf", 10⟩ : UFile).mimeType = "application/pdf" :=
  ⟨(c6_nonpdf_rejected initialUploadState ⟨"img.png", "image/png", 10⟩ (by decide)).1,
    (c6_nonpdf_rejected initialUploadState ⟨"img.png", "image/png", 10⟩ (by decide)).2
      [.choose ⟨"plan.pdf", "application/pdf", 10⟩, .click]
      ⟨"plan.pdf", "application/pdf", 10⟩
      (by simp [uploadsOf, handleFile, initialUploadState])⟩

/-- Claim C1: the poll handler ties result and error to status: it
stores (and the page displays) a result only on a `completed` snapshot
carrying one, stores an error message only on an `error` snapshot, and
on any other status updates only the progress display. -/
theorem c1_result_error_tied_to_status (s : AppState) (st : StatusSnapshot) :
    ((st.status ≠ "completed" ∨ st.result = none) → (pollStepOk s st).results = s.results)
    ∧ (∀ r, st.status = "completed" → st.result = some r →
        (pollStepOk s st).results = some r ∧ displayedResults (pollStepOk s st) = some r)
    ∧ (st.status ≠ "error" → (pollStepOk s st).error = s.error)
    ∧ (st.status = "error" →
        (pollStepOk s st).error = some (errorOrDefaultText st)
        ∧ displayedError (pollStepOk s st) = some (errorOrDefaultText st))
    ∧ (st.status ≠ "completed" → st.status ≠ "error" →
        pollStepOk s st = { s with
          progressCurrent := st.current_sheet.getD 0
          progressTotal := st.total_sheets.getD 0
          progressStatus := if st.status = "" then "unknown" else st.status }) := by
  refine ⟨?_, ?_, ?_, ?_, ?_⟩
  · rintro (hst | hres)
    · by_cases he : st.status = "error"
      · have hc : ¬st.status = "completed" := by rw [he]; decide
        simp [pollStepOk, hc, he]
      · simp [pollStepOk, hst, he]
    · by_cases hc : st.status = "completed"
      · simp [pollStepOk, hc, hres]
      · by_cases he : st.status = "error"
        · simp [pollStepOk, hc, he]
        · simp [pollStepOk, hc, he]
  · intro r hc hr
    constructor
    · simp [pollStepOk, hc, hr]
    · simp [pollStepOk, displayedResults, hc, hr]
  · intro he
    by_cases hc : st.status = "completed"
    · cases hres : st.result <;> simp [pollStepOk, hc, hres]
    · simp [pollStepOk, hc, he]
  · intro he
    have hc : ¬st.status = "completed" := by rw [he]; decide
    constructor
    · simp [pollStepOk, hc, he]
    · simp [pollStepOk, displayedError, hc, he]
  · intro hc he
    simp [pollStepOk, hc, he]

/-- Witness for C1: a completed snapshot carrying a result has it
stored and displayed. -/
theorem c1_result_error_tied_to_status_witness :
    (pollStepOk ⟨none, true, none, 0, 0, "running", true, some 1⟩
        ⟨"completed", some 1, some 1, some ⟨"f.pdf", 1, ⟨0, 0, 0, 0, 0, 0, 0⟩, [], []⟩, none⟩).results
      = some ⟨"f.pdf", 1, ⟨0, 0, 0, 0, 0, 0, 0⟩, [], []⟩
    ∧ displayedResults (pollStepOk ⟨none, true, none, 0, 0, "running", true, some 1⟩
        ⟨"completed", some 1, some 1, some ⟨"f.pdf", 1, ⟨0, 0, 0, 0, 0, 0, 0⟩, [], []⟩, none⟩)
      = some ⟨"f.pdf", 1, ⟨0, 0, 0, 0, 0, 0, 0⟩, [], []⟩ :=
  (c1_result_error_tied_to_status ⟨none, true, none, 0, 0, "running", true, some 1⟩
      ⟨"completed", some 1, some 1, some ⟨"f.pdf", 1, ⟨0, 0, 0, 0, 0, 0, 0⟩, [], []⟩, none⟩).2.1
    ⟨"f.pdf", 1, ⟨0, 0, 0, 0, 0, 0, 0⟩, [], []⟩ rfl rfl

/-- Claim C2: `completed` and `error` are terminal for the poll
handler: a terminal snapshot clears the polling interval, and in a
valid run no further poll fires for that job until a new submission. -/
theorem c2_terminal_stops_polling (s : AppState) (st : StatusSnapshot) (es : List Event)
    (hterm : st.status = "completed" ∨ st.status = "error")
    (hrun : validRun (step s (.pollOk st)) es = true)
    (hupl : ∀ j, Event.upload j ∉ es) :
    (step s (.pollOk st)).polling = false ∧ es = [] := by
  have hp : (step s (.pollOk st)).polling = false := by
    rcases hterm with h | h
    · cases hres : st.result <;> simp [step, pollStepOk, h, hres]
    · have hc : ¬st.status = "completed" := by rw [h]; decide
      simp [step, pollStepOk, hc, h]
  exact ⟨hp, stopped_run_nil _ _ hp hrun hupl⟩

/-- Witness for C2 on a completed snapshot and the empty tail run. -/
theorem c2_terminal_stops_polling_witness :
    (step ⟨none, true, none, 0, 0, "running", true, some 1⟩
      (.pollOk ⟨"completed", some 2, some 2, none, none⟩)).polling = false
    ∧ ([] : List Event) = [] :=
  c2_terminal_stops_polling ⟨none, true, none, 0, 0, "running", true, some 1⟩
    ⟨"completed", some 2, some 2, none, none⟩ [] (Or.inl rfl) rfl (by simp)

/-- Claim C5: a failed status request stops polling, surfaces the fixed
message, and in a valid run no further poll is issued for the job:
abandoning is just ceasing to poll. -/
theorem c5_poll_failure_stops (s : AppState) (es : List Event)
    (hrun : validRun (step s .pollFail) es = true)
    (hupl : ∀ j, Event.upload j ∉ es) :
    (step s .pollFail).polling = false
    ∧ (step s .pollFail).error = some "Lost connection to processing job"
    ∧ (step s .pollFail).loading = false
    ∧ es = [] :=
  ⟨rfl, rfl, rfl, stopped_run_nil _ _ rfl hrun hupl⟩

/-- Witness for C5 with the empty tail run. -/
theorem c5_poll_failure_stops_witness :
    (step ⟨none, true, none, 1, 3, "running", true, some 1⟩ .pollFail).error
      = some "Lost connection to processing job"
    ∧ ([] : List Event) = [] := by
  have h := c5_poll_failure_stops ⟨none, true, none, 1, 3, "running", true, some 1⟩ []
    rfl (by simp)
  exact ⟨h.2.1, h.2.2.2⟩

/-- Claim C7: submission does not block for processing:
`startProcessJob` posts to `/api/process/start` and the response holds
only the job id, which the upload handler records; no step other than a
completed-status poll can ever store a result. -/
theorem c7_submit_returns_job_id_only (s : AppState) :
    startProcessJobRequest = ⟨"post", "http://localhost:8000/api/process/start"⟩
    ∧ (∀ jobId, getProcessStatusRequest jobId
        = ⟨"get", "http://localhost:8000/api/process/status/" ++ jobId⟩)
    ∧ (∀ resp : StartJobResponse, resp = ⟨resp.job_id⟩)
    ∧ (∀ j, (step s (.upload j)).results = none ∧ (step s (.upload j)).jobId = some j)
    ∧ (∀ j r, (step s (.upload j)).results ≠ some r)
    ∧ (∀ r, (step s .pollFail).results = some r → s.results = some r)
    ∧ (∀ st r, (step s (.pollOk st)).results = some r → s.results ≠ some r →
        st.status = "completed" ∧ st.result = some r) := by
  refine ⟨rfl, fun jobId => rfl, fun resp => rfl, fun j => ⟨rfl, rfl⟩, ?_, ?_, ?_⟩
  · intro j r h
    simp [step] at h
  · intro r h
    exact h
  · intro st r h hne
    by_cases hc : st.status = "completed"
    · cases hres : st.result with
      | some r2 =>
        have h2 : (step s (.pollOk st)).results = some r2 := by
          simp [step, pollStepOk, hc, hres]
        exact ⟨hc, h2.symm.trans h⟩
      | none =>
        have h2 : (step s (.pollOk st)).results = s.results := by
          simp [step, pollStepOk, hc, hres]
        exact absurd (h2.symm.trans h) hne
    · by_cases he : st.status = "error"
      · have h2 : (step s (.pollOk st)).results = s.results := by
          simp [step, pollStepOk, hc, he]
        exact absurd (h2.symm.trans h) hne
      · have h2 : (step s (.pollOk st)).results = s.results := by
          simp [step, pollStepOk, hc, he]
        exact absurd (h2.symm.trans h) hne

/-- Witness for C7: the one step that stores a result is a completed
poll carrying it. -/
theorem c7_submit_returns_job_id_only_witness :
    (⟨"completed", some 1, some 1, some ⟨"f.pdf", 1, ⟨0, 0, 0, 0, 0, 0, 0⟩, [], []⟩, none⟩
        : StatusSnapshot).status = "completed"
    ∧ (⟨"completed", some 1, some 1, some ⟨"f.pdf", 1, ⟨0, 0, 0, 0, 0, 0, 0⟩, [], []⟩, none⟩
        : StatusSnapshot).result = some ⟨"f.pdf", 1, ⟨0, 0, 0, 0, 0, 0, 0⟩, [], []⟩ :=
  (c7_submit_returns_job_id_only ⟨none, true, none, 0, 0, "running", true, some 1⟩).2.2.2.2.2.2
    ⟨"completed", some 1, some 1, some ⟨"f.pdf", 1, ⟨0, 0, 0, 0, 0, 0, 0⟩, [], []⟩, none⟩
    ⟨"f.pdf", 1, ⟨0, 0, 0, 0, 0, 0, 0⟩, [], []⟩
    (by simp [step, pollStepOk]) (by simp)

end LCR
